import Mathlib

/-!
Verification development for the RedGlacier preprocessing and image-retrieval
notebooks.  The Python notebooks are shallowly embedded: pandas/geopandas
boolean-mask selections become list filters, Python dicts become association
lists that keep insertion order, Python exceptions (AssertionError, KeyError,
IndexError) become an explicit error type, and the geometry/raster operations
delegated to shapely/rioxarray are either kept abstract (passed as function
arguments, exactly as the notebooks delegate them) or instantiated with a
concrete axis-aligned-box model for evaluation on concrete inputs.
-/

namespace RedGlacier

/-- Python runtime errors that the notebooks can raise. -/
inductive PyErr where
  | assertionError (msg : String)
  | keyError (key : String)
  | indexError (msg : String)
deriving Repr, DecidableEq

/-! ## Concrete geometry model: axis-aligned boxes with rational coordinates

The notebooks delegate geometric predicates to shapely/geopandas.  For
concrete evaluation we use axis-aligned boxes (the footprints handled by the
notebooks are `Polygon.from_bounds(...)` rectangles); the resolver logic is
stated generically over any intersection predicate. -/

structure Box where
  xmin : ℚ
  ymin : ℚ
  xmax : ℚ
  ymax : ℚ
deriving Repr, DecidableEq

/-- A box is geometrically valid when its intervals are non-degenerate. -/
def Box.valid (b : Box) : Prop := b.xmin ≤ b.xmax ∧ b.ymin ≤ b.ymax

instance (b : Box) : Decidable b.valid := by
  unfold Box.valid; infer_instance

/-- Shapely-style `intersects` for (closed) boxes: the intervals overlap on
both axes.  Boundary contact counts as intersecting, as in shapely. -/
def Box.intersects (a b : Box) : Bool :=
  a.xmin ≤ b.xmax && b.xmin ≤ a.xmax && a.ymin ≤ b.ymax && b.ymin ≤ a.ymax

/-- Geometric intersection of two boxes (possibly an invalid, i.e. empty,
box). -/
def Box.inter (a b : Box) : Box :=
  ⟨max a.xmin b.xmin, max a.ymin b.ymin, min a.xmax b.xmax, min a.ymax b.ymax⟩

/-- A box represents the empty geometry when one of its intervals is
degenerate in the strict sense. -/
def Box.isEmpty (b : Box) : Bool :=
  b.xmax < b.xmin || b.ymax < b.ymin

/-- Area of a box (`0` for an empty one). -/
def Box.area (b : Box) : ℚ :=
  if b.isEmpty then 0 else (b.xmax - b.xmin) * (b.ymax - b.ymin)

/-- Shapely `bounds`: `(minx, miny, maxx, maxy)`. -/
def Box.bounds (b : Box) : ℚ × ℚ × ℚ × ℚ :=
  (b.xmin, b.ymin, b.xmax, b.ymax)

/-! ## Spatial indices and the intersection resolver

A geopandas `GeoDataFrame` index is a list of rows, each carrying a geometry
and a descriptor column (`RGI_CODE` for the glacier index, `fileurl` for the
elevation index).  `mask = index.intersects(geometry); index = index[mask]`
is a filter over the rows. -/

structure IndexRow (G : Type) (α : Type) where
  geometry : G
  descriptor : α
deriving Repr, DecidableEq

/-- The boolean-mask selection `index[index.intersects(geometry)]` common to
all three retiling notebooks. -/
def select_rows {G α : Type} (intersects : G → G → Bool)
    (index : List (IndexRow G α)) (geometry : G) : List (IndexRow G α) :=
  index.filter (fun r => intersects r.geometry geometry)

/-- Function `get_itersecting_RGI_regions` (notebook `01-generate_tile_RGI`):
filter the RGI index by intersection with the geometry and return the
`RGI_CODE` column of the selected rows. -/
def get_itersecting_RGI_regions {G : Type} (intersects : G → G → Bool)
    (index : List (IndexRow G Int)) (geometry : G) : List Int :=
  (select_rows intersects index geometry).map (fun r => r.descriptor)

/-- Function `get_itersecting_DEM_tile_URLs` (notebook `02-generate_tile_DEM`):
filter the DEM tile index by intersection and return the `fileurl` column. -/
def get_itersecting_DEM_tile_URLs {G : Type} (intersects : G → G → Bool)
    (index : List (IndexRow G String)) (geometry : G) : List String :=
  (select_rows intersects index geometry).map (fun r => r.descriptor)

/-- Pandas `.iloc[0]`: first element, or an `IndexError` on an empty
selection. -/
def iloc0 {α : Type} : List α → Except PyErr α
  | [] => .error (.indexError "single positional indexer is out-of-bounds")
  | x :: _ => .ok x

/-- The per-tile body of the RGI notebook's tile loop, from the spatial
lookup to the selected RGI code:

    rgi_codes = get_itersecting_RGI_regions(rgi_index, tile_geometry)
    assert len(rgi_codes) == 1, "Only one RGI region implemented!"
    rgi_code = rgi_codes.iloc[0]
-/
def rgi_tile_step {G : Type} (intersects : G → G → Bool)
    (rgi_index : List (IndexRow G Int)) (tile_geometry : G) :
    Except PyErr Int :=
  let rgi_codes := get_itersecting_RGI_regions intersects rgi_index tile_geometry
  if rgi_codes.length = 1 then
    iloc0 rgi_codes
  else
    .error (.assertionError "Only one RGI region implemented!")

/-! ## DEM download-and-mosaic pipeline

`download_and_mosaic` downloads every matched DEM tile into a scratch
directory, merges the downloaded rasters, reprojects the merged raster to the
image CRS/transform and crops it to the tile bounding box.  The raster
operations themselves are rioxarray library calls; they are passed in as an
abstract operations record, and the order in which the notebook invokes them
is recorded in an event trace. -/

/-- Affine transform coefficients (rasterio `Affine`). -/
structure Affine where
  a : ℚ
  b : ℚ
  d : ℚ
  e : ℚ
  xoff : ℚ
  yoff : ℚ
deriving Repr, DecidableEq

/-- Events emitted by the mosaicking pipeline, in the order the notebook
performs them. -/
inductive MosaicEv where
  | download (url : String)
  | merge
  | reproject
  | clip
deriving Repr, DecidableEq

/-- The rioxarray operations used by `download_and_mosaic`, kept abstract
exactly as the notebook delegates them. `open_raster` stands for
`get_tar_file` + `rioxarray.open_rasterio` applied to one DEM tile URL. -/
structure RasterOps (R : Type) where
  open_raster : String → R
  merge_arrays : List R → R
  reproject : R → String → Affine → R
  clip_box : R → ℚ × ℚ × ℚ × ℚ → R

/-- Function `download_and_mosaic(url_list, tmp_path, bbox, crs, transform)` from the
DEM notebook, with the scratch directory modelled as the accumulated list of
downloaded rasters and an event trace recording the order of operations. -/
def download_and_mosaic {R : Type} (ops : RasterOps R) (url_list : List String)
    (bbox : ℚ × ℚ × ℚ × ℚ) (crs : String) (transform : Affine) :
    List MosaicEv × R :=
  -- for url in url_list: get_tar_file(url, tmpdir); then glob + open
  let st := url_list.foldl
    (fun (acc : List MosaicEv × List R) url =>
      (acc.1 ++ [MosaicEv.download url], acc.2 ++ [ops.open_raster url]))
    ([], [])
  -- dem = rioxarray.merge.merge_arrays(dem_tiles)
  let dem := ops.merge_arrays st.2
  -- dem_reproj = dem.rio.reproject(crs, transform=transform)
  let dem_reproj := ops.reproject dem crs transform
  -- dem_clip = dem_reproj.rio.clip_box(*bbox)
  let dem_clip := ops.clip_box dem_reproj bbox
  (st.1 ++ [MosaicEv.merge, MosaicEv.reproject, MosaicEv.clip], dem_clip)

/-- The per-tile body of the DEM notebook's tile loop, from the spatial
lookup to the retiled raster.  Note: the DEM loop contains no assertion on
the number of matches; all matched tiles are mosaicked. -/
def dem_tile_step {G R : Type} (intersects : G → G → Bool) (ops : RasterOps R)
    (dem_index : List (IndexRow G String)) (tile_geometry : G)
    (bbox : ℚ × ℚ × ℚ × ℚ) (crs : String) (transform : Affine) :
    List MosaicEv × R :=
  let urls := get_itersecting_DEM_tile_URLs intersects dem_index tile_geometry
  download_and_mosaic ops urls bbox crs transform

/-- Free term model of rasters: enough structure to evaluate the pipeline on
concrete inputs without stubbing any operation away. -/
inductive Raster where
  | source (url : String)
  | merged (tiles : List Raster)
  | reprojected (crs : String) (transform : Affine) (r : Raster)
  | clipped (bbox : ℚ × ℚ × ℚ × ℚ) (r : Raster)
deriving Repr

/-- The free interpretation of the raster operations. -/
def freeRasterOps : RasterOps Raster where
  open_raster := Raster.source
  merge_arrays := Raster.merged
  reproject := fun r crs t => Raster.reprojected crs t r
  clip_box := fun r bbox => Raster.clipped bbox r

/-- The per-tile body of the coastline (GSHHS) notebook's tile loop:

    mask = gshhs.intersects(tile_geometry)
    gshhs_sub = gshhs[mask]
    res = gshhs_sub.intersection(tile_geometry)

followed by rasterizing the union of `res`.  There is no assertion on the
number of matches.  `intersection` and `unary_union` are the geopandas
library calls, passed in abstractly. -/
def coastline_tile_step {G : Type} (intersects : G → G → Bool)
    (intersection : G → G → G) (unary_union : List G → G)
    (gshhs : List G) (tile_geometry : G) : G :=
  let gshhs_sub := gshhs.filter (fun g => intersects g tile_geometry)
  let res := gshhs_sub.map (fun g => intersection g tile_geometry)
  unary_union res

/-! ## Catalog items, tile enumeration and the asset re-linking step -/

/-- The Sentinel-2 item properties the notebooks read. `utm_zone` is an
integer property (`sentinel:utm_zone`), the rest are strings. -/
structure Props where
  utm_zone : Nat
  latitude_band : String
  grid_square : String
  product_id : String
  mgrs_tile : String
  platform : String
deriving Repr, DecidableEq

/-- A calendar timestamp (the fields the notebooks format). -/
structure DateTime where
  year : Nat
  month : Nat
  day : Nat
deriving Repr, DecidableEq

/-- A STAC asset: a locator URL and a media type. -/
structure Asset where
  href : String
  media_type : String
deriving Repr, DecidableEq

/-- A STAC catalog item, generic over the geometry representation. Assets
form an insertion-ordered string-keyed dictionary. -/
structure Item (G : Type) where
  id : String
  datetime : DateTime
  geometry : G
  properties : Props
  assets : List (String × Asset)
deriving Repr, DecidableEq

/-- Python dict lookup on an insertion-ordered association list. -/
def dict_get {α : Type} : List (String × α) → String → Option α
  | [], _ => none
  | kv :: rest, key => if kv.1 = key then some kv.2 else dict_get rest key

/-- Function `get_sentinel2_tile_id(item)`: concatenation of the string forms of the
`sentinel:utm_zone`, `sentinel:latitude_band` and `sentinel:grid_square`
property values. -/
def get_sentinel2_tile_id {G : Type} (item : Item G) : String :=
  toString item.properties.utm_zone
    ++ item.properties.latitude_band
    ++ item.properties.grid_square

/-- The tile-enumeration loop common to the retiling notebooks:

    tiles = {}
    for item in subcatalog.get_all_items():
        tile_id = get_sentinel2_tile_id(item)
        if tile_id not in tiles:
            tiles[tile_id] = item
-/
def tile_enum_step {G : Type} (tiles : List (String × Item G))
    (item : Item G) : List (String × Item G) :=
  let tile_id := get_sentinel2_tile_id item
  if (dict_get tiles tile_id).isSome then tiles
  else tiles ++ [(tile_id, item)]

def tile_enumeration {G : Type} (items : List (Item G)) :
    List (String × Item G) :=
  items.foldl tile_enum_step []

/-! ## Public object-storage URL construction -/

/-- Fixed base URL used by the re-linking loop of
`02-link-assets-to-gcs` (it already ends in `/tiles`). -/
def BASE_URL : String :=
  "http://storage.googleapis.com/gcp-public-data-sentinel-2/tiles"

/-- Bucket and base URL used by `03_sentinel-2_add-sensor-arrays`. -/
def SENTINEL2_BUCKET : String := "gcp-public-data-sentinel-2"

def GCS_BASE_URL : String := "http://storage.googleapis.com"

/-- Python `"{:02d}".format(n)` for a non-negative integer: decimal form,
zero-padded on the left to at least two digits. -/
def format02d (n : Nat) : String :=
  if n < 10 then "0" ++ toString n else toString n

/-- The `.SAFE` product URL built in the re-linking loop:

    url = "BASE_URL/{:02d}/{}/{}/{}.SAFE".format(
        utm_zone, latitude_band, grid_square, product_id)
-/
def gcs_safe_url {G : Type} (item : Item G) : String :=
  BASE_URL ++ "/" ++ format02d item.properties.utm_zone
    ++ "/" ++ item.properties.latitude_band
    ++ "/" ++ item.properties.grid_square
    ++ "/" ++ item.properties.product_id ++ ".SAFE"

/-- Function `make_url(item, path_rel)` from the sensor-array notebook: GCS path from
the MGRS tile id slices `tile_id[:2]`, `tile_id[2]`, `tile_id[3:]`, the item
id and the relative path. -/
def make_url {G : Type} (item : Item G) (path_rel : String) : String :=
  let tile_id := item.properties.mgrs_tile
  GCS_BASE_URL ++ "/" ++ SENTINEL2_BUCKET ++ "/tiles/"
    ++ tile_id.take 2 ++ "/" ++ (tile_id.drop 2).take 1 ++ "/"
    ++ tile_id.drop 3 ++ "/" ++ item.id ++ "/" ++ path_rel

/-! ## The asset re-linking step (`02-link-assets-to-gcs`)

    for band, url in band_urls.items():
        if band in item.assets:
            item.assets[band].href = url
    item.assets['overview'].href = band_urls['TCI']

`band_urls` is the dictionary parsed from the scene's `manifest.safe` by
`_get_band_urls`; the manifest fetch is network I/O, so the mapping is an
input here. -/

/-- In-place update `item.assets[band].href = url` (only the `href` of the
entry with the given key changes). -/
def set_asset_href (assets : List (String × Asset)) (band : String)
    (url : String) : List (String × Asset) :=
  assets.map (fun kv =>
    if kv.1 = band then (kv.1, { kv.2 with href := url }) else kv)

/-- The `for band, url in band_urls.items()` loop with its
`if band in item.assets` guard. -/
def relink_bands (assets : List (String × Asset))
    (band_urls : List (String × String)) : List (String × Asset) :=
  band_urls.foldl
    (fun acc bu =>
      if (dict_get acc bu.1).isSome then set_asset_href acc bu.1 bu.2 else acc)
    assets

/-- The whole per-item body of the re-linking loop, including the
unconditional `item.assets['overview'].href = band_urls['TCI']` line.
Python evaluates the right-hand side first, so a missing `TCI` key raises
before the `overview` lookup. -/
def relink_item_assets (band_urls : List (String × String))
    (assets : List (String × Asset)) : Except PyErr (List (String × Asset)) :=
  let assets1 := relink_bands assets band_urls
  match dict_get band_urls "TCI" with
  | none => .error (.keyError "TCI")
  | some tci_url =>
    match dict_get assets1 "overview" with
    | none => .error (.keyError "overview")
    | some _ => .ok (set_asset_href assets1 "overview" tci_url)

/-- Per-item re-linking: only the assets dictionary of the item is touched. -/
def relink_item {G : Type} (band_urls : List (String × String))
    (item : Item G) : Except PyErr (Item G) :=
  match relink_item_assets band_urls item.assets with
  | .error e => .error e
  | .ok assets => .ok { item with assets := assets }

/-- The loop over `collection.get_all_items()`: each item of the level-1C
collection is re-linked in turn with the band URLs derived from its manifest
(`get_band_urls item` stands for `_get_band_urls(url)` with `url` built from
the item's properties); the first failure aborts the loop. -/
def relink_collection {G : Type} (get_band_urls : Item G → List (String × String)) :
    List (Item G) → Except PyErr (List (Item G))
  | [] => .ok []
  | item :: rest =>
    match relink_item (get_band_urls item) item with
    | .error e => .error e
    | .ok item2 =>
      match relink_collection get_band_urls rest with
      | .error e => .error e
      | .ok rest2 => .ok (item2 :: rest2)

/-! ## Shadow-classification catalog assembly (`03-extract_bbox_from_RGI`,
second notebook part) -/

/-- Geometry operations delegated to shapely, passed in abstractly. -/
structure GeomOps (G : Type) where
  inter : G → G → G
  area : G → ℚ
  bounds : G → ℚ × ℚ × ℚ × ℚ

/-- The shapely operations for the concrete box model. -/
def boxOps : GeomOps Box where
  inter := Box.inter
  area := Box.area
  bounds := Box.bounds

/-- Output item of the shadow catalog: id, geometry, bbox, datetime and the
links added to the L1C (and, when found, L2A) items. -/
structure OutItem (G : Type) where
  id : String
  geometry : G
  bbox : ℚ × ℚ × ℚ × ℚ
  datetime : DateTime
  links : List (String × String)
deriving Repr, DecidableEq

/-- Left-pad the decimal form of `n` with zeros to at least `w` digits
(Python `%0wd` formatting for non-negative values). -/
def zeroPad (w : Nat) (n : Nat) : String :=
  let s := toString n
  String.mk (List.replicate (w - s.length) '0') ++ s

/-- Python `datetime.strftime("S2_%Y-%m-%d")`. -/
def strftime_s2 (d : DateTime) : String :=
  "S2_" ++ zeroPad 4 d.year ++ "-" ++ zeroPad 2 d.month ++ "-" ++ zeroPad 2 d.day

/-- Python `datetime.strftime("%Y%m%d")`. -/
def strftime_compact (d : DateTime) : String :=
  zeroPad 4 d.year ++ zeroPad 2 d.month ++ zeroPad 2 d.day

/-- Function `_get_l2a_item(item_l1c, catalog_l2a)`: build the L2A item id from the
platform letter, the MGRS tile and the date, and look it up in the L2A
catalog (a list of item ids here; `get_item` returns `None` when absent). -/
def get_l2a_item_id {G : Type} (item_l1c : Item G) (catalog_l2a : List String) :
    Option String :=
  let platform := (item_l1c.properties.platform.takeRight 1).toUpper
  let mgrs_tile := item_l1c.properties.mgrs_tile
  let utm_zone := toString (mgrs_tile.take 2).toNat!
  let cell := mgrs_tile.drop 2
  let date := strftime_compact item_l1c.datetime
  let item_l2a_id := "S2" ++ platform ++ "_" ++ utm_zone ++ cell ++ "_" ++ date ++ "_0_L2A"
  catalog_l2a.find? (fun id => id = item_l2a_id)

/-- The body of the loop over the L1C items: intersect the item footprint
with the area of interest, keep the item when the overlap exceeds 70% of the
AOI area, and build the output item from the intersection. -/
def shadow_step {G : Type} (ops : GeomOps G) (aoi_geometry : G)
    (catalog_l2a : List String) (item_l1c : Item G) : Option (OutItem G) :=
  let geometry := ops.inter item_l1c.geometry aoi_geometry
  if ops.area geometry / ops.area aoi_geometry > 7/10 then
    let links := [("item-L1C", item_l1c.id)]
    let links :=
      match get_l2a_item_id item_l1c catalog_l2a with
      | some l2a_id => links ++ [("item-L2A", l2a_id)]
      | none => links
    some { id := strftime_s2 item_l1c.datetime
         , geometry := geometry
         , bbox := ops.bounds geometry
         , datetime := item_l1c.datetime
         , links := links }
  else
    none

/-- One iteration of the loop over `catalog_l1c.get_all_items()`: append the
output item to `items` when the step produces one (`items.append(item)`). -/
def shadow_accum {G : Type} (ops : GeomOps G) (aoi_geometry : G)
    (catalog_l2a : List String) (items : List (OutItem G))
    (item_l1c : Item G) : List (OutItem G) :=
  match shadow_step ops aoi_geometry catalog_l2a item_l1c with
  | some item => items ++ [item]
  | none => items

/-- The full loop over `catalog_l1c.get_all_items()` assembling the shadow
catalog's item list. -/
def shadow_catalog_items {G : Type} (ops : GeomOps G) (aoi_geometry : G)
    (catalog_l2a : List String) (items_l1c : List (Item G)) :
    List (OutItem G) :=
  items_l1c.foldl (shadow_accum ops aoi_geometry catalog_l2a) []

/-! ## Helper lemmas -/

theorem select_rows_eq_filter {G α : Type} (intersects : G → G → Bool)
    (index : List (IndexRow G α)) (geometry : G) :
    select_rows intersects index geometry
      = index.filter (fun r => intersects r.geometry geometry) := rfl

theorem length_get_itersecting_RGI_regions {G : Type}
    (intersects : G → G → Bool) (index : List (IndexRow G Int)) (geometry : G) :
    (get_itersecting_RGI_regions intersects index geometry).length
      = (select_rows intersects index geometry).length := by
  simp [get_itersecting_RGI_regions]

theorem rgi_tile_step_eq {G : Type} (intersects : G → G → Bool)
    (rgi_index : List (IndexRow G Int)) (tile_geometry : G) :
    rgi_tile_step intersects rgi_index tile_geometry
      = if (select_rows intersects rgi_index tile_geometry).length = 1
        then iloc0 (get_itersecting_RGI_regions intersects rgi_index tile_geometry)
        else .error (.assertionError "Only one RGI region implemented!") := by
  simp only [rgi_tile_step]
  rw [length_get_itersecting_RGI_regions]

theorem rgi_tile_step_singleton {G : Type} (intersects : G → G → Bool)
    (rgi_index : List (IndexRow G Int)) (tile_geometry : G)
    (r : IndexRow G Int)
    (h : select_rows intersects rgi_index tile_geometry = [r]) :
    rgi_tile_step intersects rgi_index tile_geometry = .ok r.descriptor := by
  rw [rgi_tile_step_eq, h]
  simp [get_itersecting_RGI_regions, h, iloc0]

theorem rgi_tile_step_not_one {G : Type} (intersects : G → G → Bool)
    (rgi_index : List (IndexRow G Int)) (tile_geometry : G)
    (h : (select_rows intersects rgi_index tile_geometry).length ≠ 1) :
    rgi_tile_step intersects rgi_index tile_geometry
      = .error (.assertionError "Only one RGI region implemented!") := by
  rw [rgi_tile_step_eq, if_neg h]

theorem rgi_tile_step_error_is_assertion {G : Type} (intersects : G → G → Bool)
    (rgi_index : List (IndexRow G Int)) (tile_geometry : G) (e : PyErr)
    (h : rgi_tile_step intersects rgi_index tile_geometry = .error e) :
    e = .assertionError "Only one RGI region implemented!" := by
  rw [rgi_tile_step_eq] at h
  by_cases hcond : (select_rows intersects rgi_index tile_geometry).length = 1
  · rw [if_pos hcond] at h
    rcases hc : get_itersecting_RGI_regions intersects rgi_index tile_geometry
      with _ | ⟨c, cs⟩
    · have hlen := length_get_itersecting_RGI_regions intersects rgi_index tile_geometry
      rw [hc] at hlen
      simp at hlen
      omega
    · rw [hc] at h
      simp [iloc0] at h
  · rw [if_neg hcond] at h
    simpa using h.symm

/-! ## C4: the resolver selects exactly the intersecting rows -/

/-- C4: for every source spatial index and tile footprint, the rows selected
by the resolver are exactly the index rows whose geometry intersects the
footprint (no row omitted, no extra row), the RGI/DEM resolvers return
exactly the descriptor column of that selection, and — in the concrete box
model — the `intersects` predicate holds precisely when the geometric
intersection is non-empty. -/
theorem C4_resolver_exact_selection :
    (∀ (G α : Type) (intersects : G → G → Bool) (index : List (IndexRow G α))
        (geometry : G) (r : IndexRow G α),
      r ∈ select_rows intersects index geometry
        ↔ r ∈ index ∧ intersects r.geometry geometry = true)
  ∧ (∀ (G : Type) (intersects : G → G → Bool) (index : List (IndexRow G Int))
        (geometry : G),
      get_itersecting_RGI_regions intersects index geometry
        = (select_rows intersects index geometry).map (fun r => r.descriptor))
  ∧ (∀ (G : Type) (intersects : G → G → Bool)
        (index : List (IndexRow G String)) (geometry : G),
      get_itersecting_DEM_tile_URLs intersects index geometry
        = (select_rows intersects index geometry).map (fun r => r.descriptor))
  ∧ (∀ a b : Box, a.valid → b.valid →
      (a.intersects b = true ↔ (a.inter b).isEmpty = false)) := by
  refine ⟨?_, fun _ _ _ _ => rfl, fun _ _ _ _ => rfl, ?_⟩
  · intro G α intersects index geometry r
    simp [select_rows, List.mem_filter]
  · rintro a b ⟨hax, hay⟩ ⟨hbx, hby⟩
    simp only [Box.intersects, Box.inter, Box.isEmpty, Bool.and_eq_true,
      decide_eq_true_eq, Bool.or_eq_false_iff, decide_eq_false_iff_not,
      not_lt, le_min_iff, max_le_iff]
    tauto

/-- Witness for C4 at concrete boxes and a concrete index. -/
theorem C4_resolver_exact_selection_witness :
    (Box.mk 0 0 2 2).valid ∧ (Box.mk 1 1 3 3).valid
  ∧ ((Box.mk 0 0 2 2).intersects (Box.mk 1 1 3 3) = true
      ↔ ((Box.mk 0 0 2 2).inter (Box.mk 1 1 3 3)).isEmpty = false) :=
  ⟨by decide, by decide,
    C4_resolver_exact_selection.2.2.2 (Box.mk 0 0 2 2) (Box.mk 1 1 3 3)
      (by decide) (by decide)⟩

/-! ## C1: the RGI tile step returns the unique match and errors otherwise -/

/-- C1: if exactly one index region intersects the tile footprint, the RGI
tile step returns that region's RGI code; if zero or more than one region
intersects, it raises an error (the assertion) instead of silently picking a
region and continuing. -/
theorem C1_rgi_unique_match_or_error {G : Type} (intersects : G → G → Bool)
    (rgi_index : List (IndexRow G Int)) (tile_geometry : G) :
    (∀ r, select_rows intersects rgi_index tile_geometry = [r] →
      rgi_tile_step intersects rgi_index tile_geometry = .ok r.descriptor)
  ∧ ((select_rows intersects rgi_index tile_geometry).length ≠ 1 →
      rgi_tile_step intersects rgi_index tile_geometry
        = .error (.assertionError "Only one RGI region implemented!")) :=
  ⟨fun r h => rgi_tile_step_singleton intersects rgi_index tile_geometry r h,
   fun h => rgi_tile_step_not_one intersects rgi_index tile_geometry h⟩

/-- Witness for C1: a one-row index whose region intersects the tile. -/
theorem C1_rgi_unique_match_or_error_witness :
    select_rows Box.intersects [⟨Box.mk 0 0 1 1, 7⟩] (Box.mk 0 0 2 2)
      = [⟨Box.mk 0 0 1 1, 7⟩]
  ∧ rgi_tile_step Box.intersects [⟨Box.mk 0 0 1 1, 7⟩] (Box.mk 0 0 2 2)
      = .ok 7 :=
  ⟨by decide,
    (C1_rgi_unique_match_or_error Box.intersects [⟨Box.mk 0 0 1 1, 7⟩]
      (Box.mk 0 0 2 2)).1 ⟨Box.mk 0 0 1 1, 7⟩ (by decide)⟩

/-! ## C2: zero matches fire the assertion, not a later lookup error -/

/-- C2 counterexample: with a spatial index whose single region does **not**
intersect the tile (zero matches), the RGI tile step fails with the explicit
`AssertionError` — not with the later unhandled positional-lookup
(`IndexError`) failure the claim describes for the zero-match case. -/
theorem C2_zero_match_counterexample :
    rgi_tile_step Box.intersects [⟨Box.mk 10 10 11 11, 3⟩] (Box.mk 0 0 1 1)
      = .error (.assertionError "Only one RGI region implemented!") := rfl

/-- C2 (amended): the explicit assertion `len(rgi_codes) == 1` fires for
**both** deviation cases — more than one match and zero matches — so the two
cases are conflated into the same `AssertionError`; the later positional
lookup (`iloc[0]`, an `IndexError` on an empty selection) is never reached. -/
theorem C2_amended_assertion_conflates_cases {G : Type}
    (intersects : G → G → Bool) (rgi_index : List (IndexRow G Int))
    (tile_geometry : G) :
    ((select_rows intersects rgi_index tile_geometry).length = 0 →
      rgi_tile_step intersects rgi_index tile_geometry
        = .error (.assertionError "Only one RGI region implemented!"))
  ∧ (2 ≤ (select_rows intersects rgi_index tile_geometry).length →
      rgi_tile_step intersects rgi_index tile_geometry
        = .error (.assertionError "Only one RGI region implemented!"))
  ∧ (∀ e, rgi_tile_step intersects rgi_index tile_geometry = .error e →
      e = .assertionError "Only one RGI region implemented!") :=
  ⟨fun h => rgi_tile_step_not_one intersects rgi_index tile_geometry (by omega),
   fun h => rgi_tile_step_not_one intersects rgi_index tile_geometry (by omega),
   fun e h => rgi_tile_step_error_is_assertion intersects rgi_index tile_geometry e h⟩

/-- Witness for C2's amended statement at a concrete zero-match index. -/
theorem C2_amended_assertion_conflates_cases_witness :
    (select_rows Box.intersects [⟨Box.mk 10 10 11 11, 3⟩] (Box.mk 0 0 1 1)).length = 0
  ∧ rgi_tile_step Box.intersects [⟨Box.mk 10 10 11 11, 3⟩] (Box.mk 0 0 1 1)
      = .error (.assertionError "Only one RGI region implemented!") :=
  ⟨by decide,
    (C2_amended_assertion_conflates_cases Box.intersects
      [⟨Box.mk 10 10 11 11, 3⟩] (Box.mk 0 0 1 1)).1 (by decide)⟩

/-! ## C5 / C3: the DEM mosaicking pipeline and the absence of assertions -/

theorem download_and_mosaic_eq {R : Type} (ops : RasterOps R)
    (url_list : List String) (bbox : ℚ × ℚ × ℚ × ℚ) (crs : String)
    (transform : Affine) :
    download_and_mosaic ops url_list bbox crs transform
      = (url_list.map MosaicEv.download ++ [.merge, .reproject, .clip],
         ops.clip_box
           (ops.reproject (ops.merge_arrays (url_list.map ops.open_raster))
             crs transform)
           bbox) := by
  have h : ∀ (l : List String) (log : List MosaicEv) (dir : List R),
      l.foldl
        (fun (acc : List MosaicEv × List R) url =>
          (acc.1 ++ [MosaicEv.download url], acc.2 ++ [ops.open_raster url]))
        (log, dir)
        = (log ++ l.map MosaicEv.download, dir ++ l.map ops.open_raster) := by
    intro l
    induction l with
    | nil => simp
    | cons u t ih =>
      intro log dir
      simp [ih]
  simp only [download_and_mosaic, h]
  simp

/-- C5: for a (non-empty) list of matched DEM source URLs, the mosaicking
path downloads each matched source file (in list order), then merges all the
downloaded rasters, then reprojects the merged raster to the target CRS and
transform, then crops to the target bounding box; the cropped raster is the
returned per-tile raster. -/
theorem C5_mosaic_pipeline_order {R : Type} (ops : RasterOps R)
    (url_list : List String) (bbox : ℚ × ℚ × ℚ × ℚ) (crs : String)
    (transform : Affine) (hne : url_list ≠ []) :
    (download_and_mosaic ops url_list bbox crs transform).1
      = url_list.map MosaicEv.download
          ++ [MosaicEv.merge, MosaicEv.reproject, MosaicEv.clip]
  ∧ (download_and_mosaic ops url_list bbox crs transform).2
      = ops.clip_box
          (ops.reproject (ops.merge_arrays (url_list.map ops.open_raster))
            crs transform)
          bbox := by
  rw [download_and_mosaic_eq]
  exact ⟨rfl, rfl⟩

/-- Witness for C5 on a concrete two-URL download list. -/
theorem C5_mosaic_pipeline_order_witness :
    (["u1", "u2"] : List String) ≠ []
  ∧ (download_and_mosaic freeRasterOps ["u1", "u2"] (0, 0, 4, 4) "crs"
        ⟨1, 0, 0, 1, 0, 0⟩).1
      = [MosaicEv.download "u1", MosaicEv.download "u2",
         MosaicEv.merge, MosaicEv.reproject, MosaicEv.clip] :=
  ⟨by decide,
    (C5_mosaic_pipeline_order freeRasterOps ["u1", "u2"] (0, 0, 4, 4) "crs"
      ⟨1, 0, 0, 1, 0, 0⟩ (by decide)).1⟩

/-- C3 counterexample: the elevation (DEM) notebook enforces no assertion.
With a concrete index in which **two** rows intersect the tile footprint,
the DEM tile step does not fail: it downloads both matched files and
mosaicks them (the claim states the one-match invariant is enforced by an
explicit assertion in the DEM notebook as well; the code contains none). -/
theorem C3_dem_no_assertion_counterexample :
    dem_tile_step Box.intersects freeRasterOps
      [⟨Box.mk 0 0 2 2, "u1"⟩, ⟨Box.mk 1 1 3 3, "u2"⟩]
      (Box.mk 0 0 4 4) (0, 0, 4, 4) "crs" ⟨1, 0, 0, 1, 0, 0⟩
      = ([MosaicEv.download "u1", MosaicEv.download "u2",
          MosaicEv.merge, MosaicEv.reproject, MosaicEv.clip],
         Raster.clipped (0, 0, 4, 4)
           (Raster.reprojected "crs" ⟨1, 0, 0, 1, 0, 0⟩
             (Raster.merged [Raster.source "u1", Raster.source "u2"]))) := rfl

/-- C3 (amended): the one-tile-one-source-match invariant is enforced by an
explicit assertion **only** in the glacier (RGI) notebook; the elevation
(DEM) notebook has no assertion (every matched source tile is downloaded and
mosaicked), and the coastline notebook has no assertion either (every
matched geometry is clipped to the footprint and unioned).  Zero or multiple
matches are unhandled in the latter two. -/
theorem C3_amended_assertion_only_in_rgi {G R : Type}
    (intersects : G → G → Bool) (ops : RasterOps R)
    (intersection : G → G → G) (unary_union : List G → G)
    (rgi_index : List (IndexRow G Int)) (dem_index : List (IndexRow G String))
    (gshhs : List G) (tile_geometry : G) (bbox : ℚ × ℚ × ℚ × ℚ)
    (crs : String) (transform : Affine) :
    ((select_rows intersects rgi_index tile_geometry).length ≠ 1 →
      rgi_tile_step intersects rgi_index tile_geometry
        = .error (.assertionError "Only one RGI region implemented!"))
  ∧ dem_tile_step intersects ops dem_index tile_geometry bbox crs transform
      = ((get_itersecting_DEM_tile_URLs intersects dem_index tile_geometry).map
            MosaicEv.download
          ++ [MosaicEv.merge, MosaicEv.reproject, MosaicEv.clip],
         ops.clip_box
           (ops.reproject
             (ops.merge_arrays
               ((get_itersecting_DEM_tile_URLs intersects dem_index
                   tile_geometry).map ops.open_raster))
             crs transform)
           bbox)
  ∧ coastline_tile_step intersects intersection unary_union gshhs tile_geometry
      = unary_union
          ((gshhs.filter (fun g => intersects g tile_geometry)).map
            (fun g => intersection g tile_geometry)) :=
  ⟨fun h => rgi_tile_step_not_one intersects rgi_index tile_geometry h,
   download_and_mosaic_eq ops _ bbox crs transform,
   rfl⟩

/-- Witness for C3's amended statement: a zero-match RGI index fires the
assertion. -/
theorem C3_amended_assertion_only_in_rgi_witness :
    (select_rows Box.intersects [⟨Box.mk 20 20 21 21, 9⟩] (Box.mk 0 0 1 1)).length ≠ 1
  ∧ rgi_tile_step Box.intersects [⟨Box.mk 20 20 21 21, 9⟩] (Box.mk 0 0 1 1)
      = .error (.assertionError "Only one RGI region implemented!") :=
  ⟨by decide,
    (C3_amended_assertion_only_in_rgi Box.intersects freeRasterOps
      Box.inter (fun _ => Box.mk 0 0 0 0) [⟨Box.mk 20 20 21 21, 9⟩] []
      [] (Box.mk 0 0 1 1) (0, 0, 1, 1) "crs" ⟨1, 0, 0, 1, 0, 0⟩).1
      (by decide)⟩

/-! ## C6: tile identifiers and the tile-enumeration dictionary -/

theorem dict_get_append {α : Type} (l1 l2 : List (String × α)) (k : String) :
    dict_get (l1 ++ l2) k = (dict_get l1 k).or (dict_get l2 k) := by
  induction l1 with
  | nil => simp [dict_get]
  | cons kv t ih =>
    by_cases h : kv.1 = k <;> simp [dict_get, h, ih]

theorem dict_get_isSome_iff {α : Type} (l : List (String × α)) (k : String) :
    (dict_get l k).isSome = true ↔ k ∈ l.map Prod.fst := by
  induction l with
  | nil => simp [dict_get]
  | cons kv t ih =>
    by_cases h : kv.1 = k
    · simp [dict_get, h]
    · simp only [dict_get, if_neg h, List.map_cons, List.mem_cons, ih]
      constructor
      · intro hm
        exact Or.inr hm
      · rintro (hm | hm)
        · exact absurd hm.symm h
        · exact hm

theorem tile_enum_foldl_lookup {G : Type} (items : List (Item G))
    (acc : List (String × Item G)) (k : String) :
    dict_get (items.foldl tile_enum_step acc) k
      = (dict_get acc k).or
          (items.find? (fun it => decide (get_sentinel2_tile_id it = k))) := by
  induction items generalizing acc with
  | nil => simp
  | cons it t ih =>
    simp only [List.foldl_cons, ih]
    unfold tile_enum_step
    by_cases h1 : (dict_get acc (get_sentinel2_tile_id it)).isSome
    · rw [if_pos h1]
      by_cases h2 : get_sentinel2_tile_id it = k
      · subst h2
        obtain ⟨v, hv⟩ := Option.isSome_iff_exists.mp h1
        simp [List.find?, hv]
      · simp [List.find?, h2]
    · rw [if_neg h1]
      rw [dict_get_append]
      by_cases h2 : get_sentinel2_tile_id it = k
      · subst h2
        have hnone : dict_get acc (get_sentinel2_tile_id it) = none := by
          cases hs : dict_get acc (get_sentinel2_tile_id it) with
          | none => rfl
          | some v => rw [hs] at h1; simp at h1
        simp [dict_get, List.find?, hnone]
      · simp [dict_get, h2, List.find?]

theorem tile_enum_foldl_keys_nodup {G : Type} (items : List (Item G))
    (acc : List (String × Item G)) (hacc : (acc.map Prod.fst).Nodup) :
    ((items.foldl tile_enum_step acc).map Prod.fst).Nodup := by
  induction items generalizing acc with
  | nil => simpa
  | cons it t ih =>
    simp only [List.foldl_cons]
    apply ih
    unfold tile_enum_step
    by_cases h1 : (dict_get acc (get_sentinel2_tile_id it)).isSome
    · rwa [if_pos h1]
    · rw [if_neg h1]
      have hmem : get_sentinel2_tile_id it ∉ acc.map Prod.fst := by
        rw [← dict_get_isSome_iff]
        simpa using h1
      simp [List.nodup_append, hacc, hmem]

/-- C6: the tile identifier is the concatenation of the string forms of the
utm-zone, latitude-band and grid-square properties (and is a deterministic
function of that property triple), and the tile-enumeration dictionary has
as keys exactly the distinct tile identifiers of the catalog items, each key
occurring once and mapped to the first item (in iteration order) bearing
that identifier. -/
theorem C6_tile_id_and_enumeration {G : Type} :
    (∀ item : Item G,
      get_sentinel2_tile_id item
        = toString item.properties.utm_zone ++ item.properties.latitude_band
            ++ item.properties.grid_square)
  ∧ (∀ i1 i2 : Item G,
      i1.properties.utm_zone = i2.properties.utm_zone →
      i1.properties.latitude_band = i2.properties.latitude_band →
      i1.properties.grid_square = i2.properties.grid_square →
      get_sentinel2_tile_id i1 = get_sentinel2_tile_id i2)
  ∧ (∀ items : List (Item G), ((tile_enumeration items).map Prod.fst).Nodup)
  ∧ (∀ (items : List (Item G)) (k : String),
      k ∈ (tile_enumeration items).map Prod.fst
        ↔ k ∈ items.map get_sentinel2_tile_id)
  ∧ (∀ (items : List (Item G)) (k : String),
      dict_get (tile_enumeration items) k
        = items.find? (fun it => decide (get_sentinel2_tile_id it = k))) := by
  refine ⟨fun _ => rfl, ?_, ?_, ?_, ?_⟩
  · intro i1 i2 hz hb hs
    unfold get_sentinel2_tile_id
    rw [hz, hb, hs]
  · intro items
    exact tile_enum_foldl_keys_nodup items [] (by simp)
  · intro items k
    rw [← dict_get_isSome_iff, tile_enumeration, tile_enum_foldl_lookup]
    simp [dict_get, List.find?_isSome]
  · intro items k
    rw [tile_enumeration, tile_enum_foldl_lookup]
    simp [dict_get]

/-- Witness for C6: two distinct items with equal property triples get the
same tile identifier. -/
theorem C6_tile_id_and_enumeration_witness :
    (Item.mk "item-a" ⟨2021, 3, 29⟩ () ⟨5, "V", "MG", "p-a", "05VMG", "sentinel-2a"⟩ []
      : Item Unit).properties.utm_zone
      = (Item.mk "item-b" ⟨2021, 4, 2⟩ () ⟨5, "V", "MG", "p-b", "05VMG", "sentinel-2b"⟩ []
      : Item Unit).properties.utm_zone
  ∧ (Item.mk "item-a" ⟨2021, 3, 29⟩ () ⟨5, "V", "MG", "p-a", "05VMG", "sentinel-2a"⟩ []
      : Item Unit).properties.latitude_band
      = (Item.mk "item-b" ⟨2021, 4, 2⟩ () ⟨5, "V", "MG", "p-b", "05VMG", "sentinel-2b"⟩ []
      : Item Unit).properties.latitude_band
  ∧ (Item.mk "item-a" ⟨2021, 3, 29⟩ () ⟨5, "V", "MG", "p-a", "05VMG", "sentinel-2a"⟩ []
      : Item Unit).properties.grid_square
      = (Item.mk "item-b" ⟨2021, 4, 2⟩ () ⟨5, "V", "MG", "p-b", "05VMG", "sentinel-2b"⟩ []
      : Item Unit).properties.grid_square
  ∧ get_sentinel2_tile_id
      (Item.mk "item-a" ⟨2021, 3, 29⟩ () ⟨5, "V", "MG", "p-a", "05VMG", "sentinel-2a"⟩ []
        : Item Unit)
      = get_sentinel2_tile_id
      (Item.mk "item-b" ⟨2021, 4, 2⟩ () ⟨5, "V", "MG", "p-b", "05VMG", "sentinel-2b"⟩ []
        : Item Unit) :=
  ⟨rfl, rfl, rfl,
    C6_tile_id_and_enumeration.2.1
      (Item.mk "item-a" ⟨2021, 3, 29⟩ () ⟨5, "V", "MG", "p-a", "05VMG", "sentinel-2a"⟩ [])
      (Item.mk "item-b" ⟨2021, 4, 2⟩ () ⟨5, "V", "MG", "p-b", "05VMG", "sentinel-2b"⟩ [])
      rfl rfl rfl⟩

/-! ## C7 / C10: the asset re-linking step -/

theorem dict_get_eq_none {α : Type} (l : List (String × α)) (k : String)
    (h : k ∉ l.map Prod.fst) : dict_get l k = none := by
  cases hs : dict_get l k with
  | none => rfl
  | some v => exact absurd ((dict_get_isSome_iff l k).mp (by simp [hs])) h

theorem set_asset_href_shape (assets : List (String × Asset)) (band url : String) :
    (set_asset_href assets band url).map (fun kv => (kv.1, kv.2.media_type))
      = assets.map (fun kv => (kv.1, kv.2.media_type)) := by
  unfold set_asset_href
  rw [List.map_map]
  apply List.map_congr_left
  intro kv _
  by_cases h : kv.1 = band <;> simp [h]

theorem set_asset_href_keys (assets : List (String × Asset)) (band url : String) :
    (set_asset_href assets band url).map Prod.fst = assets.map Prod.fst := by
  unfold set_asset_href
  rw [List.map_map]
  apply List.map_congr_left
  intro kv _
  by_cases h : kv.1 = band <;> simp [h]

theorem dict_get_set_asset_href_same (assets : List (String × Asset))
    (band url : String) :
    dict_get (set_asset_href assets band url) band
      = (dict_get assets band).map (fun a => { a with href := url }) := by
  induction assets with
  | nil => rfl
  | cons kv t ih =>
    by_cases h : kv.1 = band
    · simp [set_asset_href, dict_get, h]
    · simp only [set_asset_href, List.map_cons] at ih ⊢
      simp [dict_get, h, ih]

theorem dict_get_set_asset_href_other (assets : List (String × Asset))
    (band url k : String) (h : k ≠ band) :
    dict_get (set_asset_href assets band url) k = dict_get assets k := by
  have hbk : band ≠ k := Ne.symm h
  induction assets with
  | nil => rfl
  | cons kv t ih =>
    by_cases hk : kv.1 = k
    · have hb : kv.1 ≠ band := by rw [hk]; exact h
      simp [set_asset_href, dict_get, hk, hb, h, hbk]
    · by_cases hb : kv.1 = band
      · simp only [set_asset_href, List.map_cons] at ih ⊢
        simp [dict_get, hk, hb, hbk, ih]
      · simp only [set_asset_href, List.map_cons] at ih ⊢
        simp [dict_get, hk, hb, ih]

theorem relink_bands_cons (assets : List (String × Asset))
    (bu : String × String) (bus : List (String × String)) :
    relink_bands assets (bu :: bus)
      = relink_bands
          (if (dict_get assets bu.1).isSome
           then set_asset_href assets bu.1 bu.2 else assets) bus := rfl

theorem relink_bands_shape (bus : List (String × String)) :
    ∀ assets : List (String × Asset),
    (relink_bands assets bus).map (fun kv => (kv.1, kv.2.media_type))
      = assets.map (fun kv => (kv.1, kv.2.media_type)) := by
  induction bus with
  | nil => intro assets; rfl
  | cons bu t ih =>
    intro assets
    rw [relink_bands_cons]
    by_cases h : (dict_get assets bu.1).isSome
    · rw [if_pos h, ih, set_asset_href_shape]
    · rw [if_neg h, ih]

theorem relink_bands_get_not_in_urls (bus : List (String × String)) :
    ∀ (assets : List (String × Asset)) (b : String),
    dict_get bus b = none →
    dict_get (relink_bands assets bus) b = dict_get assets b := by
  induction bus with
  | nil => intro assets b _; rfl
  | cons bu t ih =>
    intro assets b h
    rw [dict_get] at h
    by_cases hb : bu.1 = b
    · rw [if_pos hb] at h; cases h
    · rw [if_neg hb] at h
      rw [relink_bands_cons]
      by_cases hg : (dict_get assets bu.1).isSome
      · rw [if_pos hg, ih _ _ h,
          dict_get_set_asset_href_other _ _ _ _ (Ne.symm hb)]
      · rw [if_neg hg, ih _ _ h]

theorem relink_bands_get_no_asset (bus : List (String × String)) :
    ∀ (assets : List (String × Asset)) (b : String),
    dict_get assets b = none →
    dict_get (relink_bands assets bus) b = none := by
  induction bus with
  | nil => intro assets b h; exact h
  | cons bu t ih =>
    intro assets b h
    rw [relink_bands_cons]
    by_cases hg : (dict_get assets bu.1).isSome
    · rw [if_pos hg]
      apply ih
      by_cases hb : b = bu.1
      · subst hb
        rw [dict_get_set_asset_href_same, h]
        rfl
      · rw [dict_get_set_asset_href_other _ _ _ _ hb, h]
    · rw [if_neg hg]
      exact ih _ _ h

theorem relink_bands_get_replaced (bus : List (String × String)) :
    ∀ (assets : List (String × Asset)) (b u : String) (a : Asset),
    (bus.map Prod.fst).Nodup → dict_get bus b = some u →
    dict_get assets b = some a →
    dict_get (relink_bands assets bus) b = some { a with href := u } := by
  induction bus with
  | nil => intro _ _ _ _ _ h; cases h
  | cons bu t ih =>
    intro assets b u a hnd hbu ha
    simp only [List.map_cons, List.nodup_cons] at hnd
    rw [dict_get] at hbu
    rw [relink_bands_cons]
    by_cases hb : bu.1 = b
    · rw [if_pos hb] at hbu
      injection hbu with hu
      subst hb
      have hg : (dict_get assets bu.1).isSome := by rw [ha]; rfl
      rw [if_pos hg]
      rw [relink_bands_get_not_in_urls t _ _ (dict_get_eq_none _ _ hnd.1)]
      rw [dict_get_set_asset_href_same, ha]
      rw [hu]
      rfl
    · rw [if_neg hb] at hbu
      have hnd' : (t.map Prod.fst).Nodup := hnd.2
      by_cases hg : (dict_get assets bu.1).isSome
      · rw [if_pos hg]
        apply ih _ _ _ _ hnd' hbu
        rw [dict_get_set_asset_href_other _ _ _ _ (Ne.symm hb)]
        exact ha
      · rw [if_neg hg]
        exact ih _ _ _ _ hnd' hbu ha

theorem relink_item_assets_ok {bus : List (String × String)}
    {assets assets' : List (String × Asset)}
    (h : relink_item_assets bus assets = .ok assets') :
    ∃ tci, dict_get bus "TCI" = some tci
      ∧ (dict_get (relink_bands assets bus) "overview").isSome
      ∧ assets' = set_asset_href (relink_bands assets bus) "overview" tci := by
  simp only [relink_item_assets] at h
  cases h1 : dict_get bus "TCI" with
  | none => rw [h1] at h; cases h
  | some tci =>
    rw [h1] at h
    cases h2 : dict_get (relink_bands assets bus) "overview" with
    | none => rw [h2] at h; cases h
    | some a =>
      rw [h2] at h
      injection h with h
      exact ⟨tci, rfl, rfl, h.symm⟩

theorem relink_item_frame {G : Type} (bus : List (String × String))
    (item item' : Item G) (h : relink_item bus item = .ok item') :
    item'.id = item.id ∧ item'.datetime = item.datetime
  ∧ item'.geometry = item.geometry ∧ item'.properties = item.properties
  ∧ item'.assets.map (fun kv => (kv.1, kv.2.media_type))
      = item.assets.map (fun kv => (kv.1, kv.2.media_type)) := by
  unfold relink_item at h
  cases ha : relink_item_assets bus item.assets with
  | error e => rw [ha] at h; cases h
  | ok as =>
    rw [ha] at h
    injection h with h
    subst h
    refine ⟨rfl, rfl, rfl, rfl, ?_⟩
    obtain ⟨tci, _, _, rfl⟩ := relink_item_assets_ok ha
    rw [set_asset_href_shape, relink_bands_shape]

/-- C7: on a successful run, the re-linking step leaves the collection's
item count and every item's identifier, timestamp, geometry, property
mapping, asset keys and asset media types unchanged — only asset hrefs can
differ. -/
theorem C7_relink_changes_only_hrefs {G : Type}
    (get_band_urls : Item G → List (String × String))
    (items items' : List (Item G))
    (h : relink_collection get_band_urls items = .ok items') :
    items'.length = items.length
  ∧ items'.map (fun it => it.id) = items.map (fun it => it.id)
  ∧ items'.map (fun it => it.datetime) = items.map (fun it => it.datetime)
  ∧ items'.map (fun it => it.geometry) = items.map (fun it => it.geometry)
  ∧ items'.map (fun it => it.properties) = items.map (fun it => it.properties)
  ∧ items'.map (fun it => it.assets.map (fun kv => (kv.1, kv.2.media_type)))
      = items.map (fun it => it.assets.map (fun kv => (kv.1, kv.2.media_type))) := by
  induction items generalizing items' with
  | nil =>
    unfold relink_collection at h
    injection h with h
    subst h
    simp
  | cons item rest ih =>
    unfold relink_collection at h
    cases h1 : relink_item (get_band_urls item) item with
    | error e => rw [h1] at h; cases h
    | ok item2 =>
      rw [h1] at h
      cases h2 : relink_collection get_band_urls rest with
      | error e => rw [h2] at h; cases h
      | ok rest2 =>
        rw [h2] at h
        injection h with h
        subst h
        obtain ⟨f1, f2, f3, f4, f5⟩ := relink_item_frame _ _ _ h1
        obtain ⟨l1, l2, l3, l4, l5, l6⟩ := ih _ h2
        exact ⟨by simp [l1], by simp [f1, l2], by simp [f2, l3],
          by simp [f3, l4], by simp [f4, l5], by simp [f5, l6]⟩

def demoAssets : List (String × Asset) :=
  [("B02", ⟨"old-b02", "image/jp2"⟩), ("overview", ⟨"old-ov", "image/jp2"⟩)]

def demoBandUrls : List (String × String) :=
  [("B02", "gcs-b02"), ("TCI", "gcs-tci")]

def demoItem : Item Unit :=
  ⟨"item-1", ⟨2021, 3, 29⟩, (), ⟨5, "V", "MG", "prod-1", "05VMG", "sentinel-2a"⟩,
    demoAssets⟩

def demoAssetsRelinked : List (String × Asset) :=
  [("B02", ⟨"gcs-b02", "image/jp2"⟩), ("overview", ⟨"gcs-tci", "image/jp2"⟩)]

def demoItemRelinked : Item Unit :=
  ⟨"item-1", ⟨2021, 3, 29⟩, (), ⟨5, "V", "MG", "prod-1", "05VMG", "sentinel-2a"⟩,
    demoAssetsRelinked⟩

/-- Witness for C7 on a concrete one-item collection. -/
theorem C7_relink_changes_only_hrefs_witness :
    relink_collection (fun _ => demoBandUrls) [demoItem] = .ok [demoItemRelinked]
  ∧ [demoItemRelinked].map (fun it => it.assets.map (fun kv => (kv.1, kv.2.media_type)))
      = [demoItem].map (fun it => it.assets.map (fun kv => (kv.1, kv.2.media_type))) :=
  ⟨rfl,
    (C7_relink_changes_only_hrefs (fun _ => demoBandUrls) [demoItem]
      [demoItemRelinked] rfl).2.2.2.2.2⟩

/-- C10: an item's asset href is replaced only for band keys present both in
the manifest-derived URL mapping and in the item's existing assets; assets
for bands absent from the manifest keep their previous hrefs, no asset
entries appear for bands absent from the item, the `overview` asset's href
is unconditionally set to the manifest's `TCI` URL, and a manifest without a
`TCI` entry makes the step fail with a `KeyError`. -/
theorem C10_relink_band_guard_and_tci (bus : List (String × String))
    (assets assets' : List (String × Asset)) :
    (dict_get bus "TCI" = none →
      relink_item_assets bus assets = .error (.keyError "TCI"))
  ∧ (relink_item_assets bus assets = .ok assets' →
       (∀ b a, b ≠ "overview" → dict_get bus b = none →
          dict_get assets b = some a → dict_get assets' b = some a)
     ∧ (∀ b u a, b ≠ "overview" → (bus.map Prod.fst).Nodup →
          dict_get bus b = some u → dict_get assets b = some a →
          dict_get assets' b = some { href := u, media_type := a.media_type })
     ∧ (∀ b, dict_get assets b = none → dict_get assets' b = none)
     ∧ (∀ u, dict_get bus "TCI" = some u →
          ∃ a, dict_get assets' "overview" = some a ∧ a.href = u)) := by
  constructor
  · intro h
    simp only [relink_item_assets, h]
  · intro h
    obtain ⟨tci, h1, h2, rfl⟩ := relink_item_assets_ok h
    refine ⟨?_, ?_, ?_, ?_⟩
    · intro b a hb hbus ha
      rw [dict_get_set_asset_href_other _ _ _ _ hb,
        relink_bands_get_not_in_urls _ _ _ hbus]
      exact ha
    · intro b u a hb hnd hbus ha
      rw [dict_get_set_asset_href_other _ _ _ _ hb,
        relink_bands_get_replaced _ _ _ _ _ hnd hbus ha]
    · intro b hnone
      by_cases hb : b = "overview"
      · subst hb
        rw [relink_bands_get_no_asset _ _ _ hnone] at h2
        cases h2
      · rw [dict_get_set_asset_href_other _ _ _ _ hb,
          relink_bands_get_no_asset _ _ _ hnone]
    · intro u hu
      rw [h1] at hu
      injection hu with hu
      obtain ⟨a1, ha1⟩ := Option.isSome_iff_exists.mp h2
      refine ⟨{ a1 with href := tci }, ?_, hu⟩
      rw [dict_get_set_asset_href_same, ha1]
      rfl

/-- Witness for C10: a manifest with a `TCI` entry re-links the `overview`
asset to the `TCI` URL. -/
theorem C10_relink_band_guard_and_tci_witness :
    relink_item_assets demoBandUrls demoAssets = .ok demoAssetsRelinked
  ∧ dict_get demoBandUrls "TCI" = some "gcs-tci"
  ∧ ∃ a, dict_get demoAssetsRelinked "overview" = some a ∧ a.href = "gcs-tci" :=
  ⟨rfl, rfl,
    ((C10_relink_band_guard_and_tci demoBandUrls demoAssets
      demoAssetsRelinked).2 rfl).2.2.2 "gcs-tci" rfl⟩

/-! ## C8: deterministic URL templating -/

/-- C8: both public object-storage URL builders are deterministic functions
of the fixed bucket/base constants and the identifiers taken from the item's
properties: two items agreeing on the relevant property values (and, for the
per-scene path, the item id) yield identical URL strings. -/
theorem C8_url_templating_deterministic {G H : Type} (i1 : Item G)
    (i2 : Item H) (path_rel : String)
    (hz : i1.properties.utm_zone = i2.properties.utm_zone)
    (hb : i1.properties.latitude_band = i2.properties.latitude_band)
    (hs : i1.properties.grid_square = i2.properties.grid_square)
    (hp : i1.properties.product_id = i2.properties.product_id)
    (hm : i1.properties.mgrs_tile = i2.properties.mgrs_tile)
    (hid : i1.id = i2.id) :
    gcs_safe_url i1 = gcs_safe_url i2
  ∧ make_url i1 path_rel = make_url i2 path_rel := by
  unfold gcs_safe_url make_url
  rw [hz, hb, hs, hp, hm, hid]
  exact ⟨rfl, rfl⟩

def demoItemUrlA : Item Unit :=
  ⟨"S2A_5VMG_20210329_0_L1C", ⟨2021, 3, 29⟩, (),
    ⟨5, "V", "MG", "S2A_MSIL1C_20210329", "05VMG", "sentinel-2a"⟩, []⟩

def demoItemUrlB : Item Unit :=
  ⟨"S2A_5VMG_20210329_0_L1C", ⟨2021, 3, 30⟩, (),
    ⟨5, "V", "MG", "S2A_MSIL1C_20210329", "05VMG", "sentinel-2a"⟩,
    [("B02", ⟨"somewhere", "image/jp2"⟩)]⟩

/-- Witness for C8: two items equal on the relevant properties (but
differing in timestamp and assets) produce the same URLs. -/
theorem C8_url_templating_deterministic_witness :
    demoItemUrlA.properties = demoItemUrlB.properties
  ∧ demoItemUrlA.id = demoItemUrlB.id
  ∧ gcs_safe_url demoItemUrlA = gcs_safe_url demoItemUrlB
  ∧ make_url demoItemUrlA "GRANULE/x/QI_DATA/MSK_DETFOO_B02.gml"
      = make_url demoItemUrlB "GRANULE/x/QI_DATA/MSK_DETFOO_B02.gml" :=
  ⟨rfl, rfl,
    (C8_url_templating_deterministic demoItemUrlA demoItemUrlB
      "GRANULE/x/QI_DATA/MSK_DETFOO_B02.gml" rfl rfl rfl rfl rfl rfl).1,
    (C8_url_templating_deterministic demoItemUrlA demoItemUrlB
      "GRANULE/x/QI_DATA/MSK_DETFOO_B02.gml" rfl rfl rfl rfl rfl rfl).2⟩

/-! ## C9: the shadow-classification catalog filter -/

theorem foldl_shadow_accum {G : Type} (ops : GeomOps G) (aoi : G)
    (catalog_l2a : List String) (l : List (Item G))
    (acc : List (OutItem G)) :
    l.foldl (shadow_accum ops aoi catalog_l2a) acc
      = acc ++ l.filterMap (shadow_step ops aoi catalog_l2a) := by
  induction l generalizing acc with
  | nil => simp
  | cons a t ih =>
    simp only [List.foldl_cons, ih]
    cases hf : shadow_step ops aoi catalog_l2a a <;>
      simp [shadow_accum, List.filterMap_cons, hf]

/-- C9: in the shadow-catalog assembly, an output item is created for a
level-1C item exactly when the area of the intersection of its footprint
with the area of interest exceeds 70% of the AOI area; the created item's
geometry is that intersection, its bbox is the intersection's bounds, and
its timestamp is the level-1C item's timestamp; the assembled list is the
filter-map of the per-item step over the input items. -/
theorem C9_shadow_catalog_filter {G : Type} (ops : GeomOps G) (aoi : G)
    (catalog_l2a : List String) :
    (∀ items : List (Item G),
      shadow_catalog_items ops aoi catalog_l2a items
        = items.filterMap (shadow_step ops aoi catalog_l2a))
  ∧ (∀ it : Item G,
      (shadow_step ops aoi catalog_l2a it).isSome
        ↔ ops.area (ops.inter it.geometry aoi) / ops.area aoi > 7/10)
  ∧ (∀ (it : Item G) (o : OutItem G),
      shadow_step ops aoi catalog_l2a it = some o →
        o.geometry = ops.inter it.geometry aoi
      ∧ o.bbox = ops.bounds (ops.inter it.geometry aoi)
      ∧ o.datetime = it.datetime) := by
  refine ⟨?_, ?_, ?_⟩
  · intro items
    simpa [shadow_catalog_items]
      using foldl_shadow_accum ops aoi catalog_l2a items []
  · intro it
    simp only [shadow_step]
    by_cases h : ops.area (ops.inter it.geometry aoi) / ops.area aoi > 7/10
    · simp [h]
    · simp [h]
  · intro it o h
    simp only [shadow_step] at h
    by_cases hc : ops.area (ops.inter it.geometry aoi) / ops.area aoi > 7/10
    · rw [if_pos hc] at h
      injection h with h
      subst h
      exact ⟨rfl, rfl, rfl⟩
    · rw [if_neg hc] at h
      cases h

def demoL1CItem : Item Box :=
  ⟨"L1C-1", ⟨2021, 3, 29⟩, Box.mk 0 0 9 10,
    ⟨5, "V", "MG", "prod-1", "05VMG", "sentinel-2a"⟩, []⟩

def demoShadowOut : OutItem Box :=
  ⟨"S2_2021-03-29", Box.mk 0 0 9 10, (0, 0, 9, 10), ⟨2021, 3, 29⟩,
    [("item-L1C", "L1C-1")]⟩

/-- Witness for C9: a footprint covering 90% of the AOI passes the filter
and the output item carries the intersection geometry, its bounds and the
input timestamp. -/
theorem C9_shadow_catalog_filter_witness :
    shadow_step boxOps (Box.mk 0 0 10 10) [] demoL1CItem = some demoShadowOut
  ∧ (demoShadowOut.geometry = boxOps.inter demoL1CItem.geometry (Box.mk 0 0 10 10)
      ∧ demoShadowOut.bbox = boxOps.bounds (boxOps.inter demoL1CItem.geometry (Box.mk 0 0 10 10))
      ∧ demoShadowOut.datetime = demoL1CItem.datetime) :=
  ⟨by
    simp only [shadow_step]
    split
    · rfl
    · rename_i h
      exfalso
      apply h
      have hi : boxOps.inter demoL1CItem.geometry (Box.mk 0 0 10 10)
          = Box.mk 0 0 9 10 := rfl
      rw [hi]
      show Box.area (Box.mk 0 0 9 10) / Box.area (Box.mk 0 0 10 10) > 7/10
      norm_num [Box.area, Box.isEmpty],
    (C9_shadow_catalog_filter boxOps (Box.mk 0 0 10 10) []).2.2 demoL1CItem
      demoShadowOut (by
        simp only [shadow_step]
        split
        · rfl
        · rename_i h
          exfalso
          apply h
          have hi : boxOps.inter demoL1CItem.geometry (Box.mk 0 0 10 10)
              = Box.mk 0 0 9 10 := rfl
          rw [hi]
          show Box.area (Box.mk 0 0 9 10) / Box.area (Box.mk 0 0 10 10) > 7/10
          norm_num [Box.area, Box.isEmpty])⟩

end RedGlacier
